import Mathlib

/-!
Verification of the process supervisor `mcp_launcher.py` (two versions:
`scripts/mcp_launcher.py`, the evolved script with dynamic ports, a per-pid
log file and signal handlers, and the earlier `mcp_launcher.py` at the repo
root with a fixed port).  The Python functions are shallowly embedded as
Lean functions over explicit state; OS effects (signals sent, sleeps,
process launches) are recorded as actions in a trace, and fallible OS
primitives take an environment that says whether each one raises.
-/

/-- Decimal rendering of a natural number, mirroring the fuel-based
structure of `Nat.repr`/`Nat.toDigitsCore` (which is what Python's
`str`/`format` produce for a nonnegative integer).  Structural recursion on
the fuel keeps it kernel-reducible. -/
def decReprCore : Nat → Nat → List Char → List Char
  | 0, _, acc => acc
  | fuel+1, n, acc =>
    if n / 10 = 0 then Nat.digitChar (n % 10) :: acc
    else decReprCore fuel (n / 10) (Nat.digitChar (n % 10) :: acc)

def decRepr (n : Nat) : String :=
  ⟨decReprCore (n+1) n []⟩

/-- Python `str` of an integer (used for formatting a process return code,
which can be negative when the process died of a signal). -/
def intRepr (i : Int) : String :=
  if i < 0 then "-" ++ decRepr i.natAbs else decRepr i.natAbs

/-- Decimal value of a digit list: left inverse of `decReprCore`. -/
def decVal (l : List Char) : Nat :=
  l.foldl (fun a c => a * 10 + (c.toNat - 48)) 0

theorem decVal_append (l₁ l₂ : List Char) :
    decVal (l₁ ++ l₂) = (l₂.foldl (fun a c => a * 10 + (c.toNat - 48)) (decVal l₁)) := by
  simp [decVal, List.foldl_append]

theorem digitChar_toNat_sub (d : Nat) (h : d < 10) :
    (Nat.digitChar d).toNat - 48 = d := by
  interval_cases d <;> decide

theorem decReprCore_acc (fuel : Nat) :
    ∀ n acc, decReprCore fuel n acc = decReprCore fuel n [] ++ acc := by
  induction fuel with
  | zero => intro n acc; simp [decReprCore]
  | succ fuel ih =>
    intro n acc
    by_cases h : n / 10 = 0
    · simp [decReprCore, h]
    · simp only [decReprCore, h, if_false]
      rw [ih (n / 10) (Nat.digitChar (n % 10) :: acc),
          ih (n / 10) [Nat.digitChar (n % 10)]]
      simp

theorem decVal_decReprCore (fuel : Nat) :
    ∀ n, n < fuel → decVal (decReprCore fuel n []) = n := by
  induction fuel with
  | zero => intro n h; omega
  | succ fuel ih =>
    intro n hn
    by_cases h : n / 10 = 0
    · have hlt : n < 10 := by omega
      simp [decReprCore, h, decVal, digitChar_toNat_sub (n % 10) (Nat.mod_lt _ (by omega))]
      omega
    · have hpos : 10 ≤ n := by
        by_contra hc
        exact h (Nat.div_eq_of_lt (by omega))
      have hdiv : n / 10 < fuel := by
        have h1 : n / 10 < n := Nat.div_lt_self (by omega) (by omega)
        omega
      simp only [decReprCore, h, if_false]
      rw [decReprCore_acc, decVal_append]
      simp [List.foldl, ih (n / 10) hdiv,
        digitChar_toNat_sub (n % 10) (Nat.mod_lt _ (by omega))]
      omega

theorem decVal_decRepr (n : Nat) : decVal (decRepr n).data = n :=
  decVal_decReprCore (n+1) n (Nat.lt_succ_self n)

theorem decRepr_injective : Function.Injective decRepr := by
  intro a b h
  have : decVal (decRepr a).data = decVal (decRepr b).data := by rw [h]
  rwa [decVal_decRepr, decVal_decRepr] at this

/-! ### Pure helpers shared by both launcher versions -/

/-- `SERVER_HOST = "127.0.0.1"` (both versions, configuration section). -/
def SERVER_HOST : String := "127.0.0.1"

/-- `LOG_FILE_PATH_TEMPLATE.format(pid=os.getpid())` with the template
`"uvicorn_mcp_server_\x7bpid\x7d.log"` (scripts version, lines 15 and 93). -/
def logFilePath (pid : Nat) : String :=
  "uvicorn_mcp_server_" ++ decRepr pid ++ ".log"

/-- `server_url = f"http://\x7bSERVER_HOST\x7d:\x7bserver_port\x7d"`
(scripts version, line 92). -/
def serverUrl (port : Nat) : String :=
  "http://" ++ SERVER_HOST ++ ":" ++ decRepr port

/-- `proxy_cmd = ["dba-mcp-proxy"] + (proxy_args or [])` followed by
`proxy_cmd.extend(["--databricks-app-url", server_url])` (scripts version,
lines 141-142).  `proxy_args` defaults to `None`; Python's `or []` maps both
`None` and `[]` to `[]`. -/
def proxyCmd (proxyArgs : Option (List String)) (url : String) : List String :=
  ("dba-mcp-proxy" :: (match proxyArgs with | none => [] | some xs => xs))
    ++ ["--databricks-app-url", url]

/-! ### Cleanup model (scripts version, `cleanup_server`, lines 31-71) -/

/-- Python exception classes relevant to cleanup: `ProcessLookupError`,
`subprocess.TimeoutExpired`, and any other `Exception`. -/
inductive PyErr
  | processLookup
  | timeoutExpired
  | other
deriving DecidableEq, Repr

inductive Sig
  | sigterm
  | sigkill
deriving DecidableEq, Repr

/-- Observable OS-level actions, recorded in order. -/
inductive Act
  | closeLog
  | getpgid (pid : Nat)
  | killpg (pgid : Nat) (s : Sig)
  | sleepSec (n : Nat)
  | waitProc (timeout : Nat)
  | registerHandlers
  | openLog (path : String)
  | startBackend (host : String) (port : Nat)
  | readLog (path : String)
  | setEnv (name val : String)
  | startProxy (cmd : List String)
  | waitProxy
deriving DecidableEq, Repr

/-- The module-global state `cleanup_server` reads and writes:
`LOG_FILE` (present? closed?) and `SERVER_PROCESS` (present? `poll()`
returning `None`, i.e. alive? its pid). -/
structure CleanupState where
  logFilePresent : Bool
  logFileClosed : Bool
  serverPresent : Bool
  serverAlive : Bool
  serverPid : Nat
deriving DecidableEq, Repr

/-- Fault model for the OS primitives used by `cleanup_server`: each field
says whether the corresponding call raises (`none` = returns normally).
`pgid` is the value `os.getpgid` returns; `aliveAfterTerm` is what
`SERVER_PROCESS.poll()` reports after `SIGTERM` + `time.sleep(1)`.
`SERVER_PROCESS.wait(timeout=1)` may raise `TimeoutExpired`, but that is
caught by the same `except Exception` handler and changes nothing
observable, so it needs no field. -/
structure CleanupEnv where
  closeErr : Option PyErr
  getpgidErr : Option PyErr
  pgid : Nat
  killpgTermErr : Option PyErr
  aliveAfterTerm : Bool
  killpgKillErr : Option PyErr
deriving DecidableEq, Repr

/-- An environment in which no OS primitive raises spuriously. -/
def CleanupEnv.honest (e : CleanupEnv) : Prop :=
  e.closeErr = none ∧ e.getpgidErr = none ∧ e.killpgTermErr = none ∧
    e.killpgKillErr = none

instance (e : CleanupEnv) : Decidable e.honest := by
  unfold CleanupEnv.honest; infer_instance

structure CleanupResult where
  acts : List Act
  raised : Option PyErr
  state : CleanupState
deriving DecidableEq, Repr

/-- Grace period after the group `SIGTERM`: `time.sleep(1)` (line 55). -/
def cleanupTermGraceSec : Nat := 1

/-- Timeout of the wait after the group `SIGKILL`:
`SERVER_PROCESS.wait(timeout=1)` (line 64). -/
def cleanupKillWaitSec : Nat := 1

/-- The kill section of `cleanup_server` (lines 42-71): guarded by
`try ... except ProcessLookupError: pass / except Exception: print`, so no
error escapes it.  `SIGKILL`, once delivered, cannot be ignored, so the
backend is dead afterwards even if `wait(timeout=1)` times out. -/
def cleanupKill (st : CleanupState) (env : CleanupEnv) (acc : List Act) :
    CleanupResult :=
  if st.serverPresent && st.serverAlive then
    let a1 := acc ++ [Act.getpgid st.serverPid]
    match env.getpgidErr with
    | some _ => { acts := a1, raised := none, state := st }
    | none =>
      let a2 := a1 ++ [Act.killpg env.pgid Sig.sigterm]
      match env.killpgTermErr with
      | some _ => { acts := a2, raised := none, state := st }
      | none =>
        let a3 := a2 ++ [Act.sleepSec cleanupTermGraceSec]
        if env.aliveAfterTerm then
          let a4 := a3 ++ [Act.killpg env.pgid Sig.sigkill]
          match env.killpgKillErr with
          | some _ => { acts := a4, raised := none, state := st }
          | none =>
            { acts := a4 ++ [Act.waitProc cleanupKillWaitSec], raised := none,
              state := { st with serverAlive := false } }
        else
          { acts := a3, raised := none,
            state := { st with serverAlive := false } }
  else
    { acts := acc, raised := none, state := st }

/-- `cleanup_server` (lines 31-71).  Step 1 (lines 35-36) closes the log
file; it sits OUTSIDE the `try`, so an error raised by `close()` escapes the
function and the kill section never runs.  (CPython still marks the file
closed even when `close()` raises during its flush.) -/
def cleanup_server (st : CleanupState) (env : CleanupEnv) : CleanupResult :=
  if st.logFilePresent && !st.logFileClosed then
    match env.closeErr with
    | some e =>
        { acts := [Act.closeLog], raised := some e,
          state := { st with logFileClosed := true } }
    | none => cleanupKill { st with logFileClosed := true } env [Act.closeLog]
  else
    cleanupKill st env []

/-! ### Launch model (scripts version, `launch_server_and_proxy`, lines 81-168) -/

/-- What happens while the supervisor blocks in `PROXY_PROCESS.wait()`:
either the proxy exits with a code, or a `SIGINT`/`SIGTERM` is delivered to
the supervisor (whose registered `signal_handler` runs `cleanup_server()`
then `sys.exit(0)`). -/
inductive ProxyOutcome
  | exits (code : Int)
  | signaled (sig : Nat)
deriving DecidableEq, Repr

/-- The run-specific inputs of one execution of the scripts launcher:
values returned by the OS (`os.getpid`, `find_free_port`, the backend
child's pid and process-group id), whether the backend is found dead when
the fixed two-second readiness wait elapses (`poll() is not None`), its
`returncode` and captured log output in that case, what ends the blocking
proxy wait, whether the backend is still alive when post-run cleanup
starts, and whether it survives cleanup's `SIGTERM` grace period. -/
structure LaunchEnv where
  pid : Nat
  serverPort : Nat
  serverPid : Nat
  pgid : Nat
  backendDeadAfterWait : Bool
  backendExitCode : Int
  logContents : String
  proxyOutcome : ProxyOutcome
  backendAliveAtCleanup : Bool
  backendAliveAfterTerm : Bool
deriving DecidableEq, Repr

/-- Cleanup environment induced by a run in which no OS primitive raises
spuriously. -/
def LaunchEnv.cleanupEnv (e : LaunchEnv) : CleanupEnv :=
  { closeErr := none, getpgidErr := none, pgid := e.pgid,
    killpgTermErr := none, aliveAfterTerm := e.backendAliveAfterTerm,
    killpgKillErr := none }

/-- The `RuntimeError` message of line 130-131:
`f"Server failed to start. Exit code: \x7b...returncode\x7d. Output from \x7bLOG_FILE_PATH\x7d:\n\x7berror_output\x7d"`. -/
def startFailMsg (code : Int) (path output : String) : String :=
  "Server failed to start. Exit code: " ++ intRepr code ++
    ". Output from " ++ path ++ ":\n" ++ output

structure LaunchResult where
  acts : List Act
  exitCode : Int
  finalState : CleanupState
  errMsg : Option String
deriving DecidableEq, Repr

/-- `launch_server_and_proxy(proxy_args)` of `scripts/mcp_launcher.py`
(lines 81-168), for runs where the filesystem/process-spawn primitives the
claims do not exercise (`open`, `Popen`) succeed.

Control flow followed from the source:
* allocate port, compute `LOG_FILE_PATH`, register handlers, open the log,
  `Popen` the backend in a new session, `time.sleep(2)`;
* if `poll()` shows the backend dead: close the log, read it back, raise
  `RuntimeError(...)` — caught by `except Exception`, so
  `proxy_exit_code = 1`; the `finally` runs `cleanup_server()`;
  `sys.exit(1)`;
* otherwise set `os.environ["DATABRICKS_APP_URL"]`, build `proxy_cmd`,
  `Popen` the proxy, block in `wait()`:
  - the proxy exits with `c`: `proxy_exit_code = c`, `finally` cleanup,
    `sys.exit(c)`;
  - a signal is delivered: `signal_handler` runs `cleanup_server()` then
    `sys.exit(0)`; the `SystemExit` is caught at line 156, which re-raises
    via `sys.exit(e.code)`; the `finally` runs `cleanup_server()` a second
    time; the process exits with code 0 (lines 167-168 are skipped). -/
def launch_server_and_proxy (proxyArgs : Option (List String))
    (env : LaunchEnv) : LaunchResult :=
  let path := logFilePath env.pid
  let url := serverUrl env.serverPort
  let pre : List Act :=
    [Act.registerHandlers, Act.openLog path,
     Act.startBackend SERVER_HOST env.serverPort, Act.sleepSec 2]
  let st0 : CleanupState :=
    { logFilePresent := true, logFileClosed := false,
      serverPresent := true, serverAlive := true, serverPid := env.serverPid }
  if env.backendDeadAfterWait then
    let msg := startFailMsg env.backendExitCode path env.logContents
    let st1 : CleanupState :=
      { st0 with logFileClosed := true, serverAlive := false }
    let c := cleanup_server st1 env.cleanupEnv
    { acts := pre ++ [Act.closeLog, Act.readLog path] ++ c.acts,
      exitCode := 1, finalState := c.state, errMsg := some msg }
  else
    let launched := pre ++
      [Act.setEnv "DATABRICKS_APP_URL" url,
       Act.startProxy (proxyCmd proxyArgs url), Act.waitProxy]
    let stp : CleanupState := { st0 with serverAlive := env.backendAliveAtCleanup }
    match env.proxyOutcome with
    | ProxyOutcome.exits code =>
        let c := cleanup_server stp env.cleanupEnv
        { acts := launched ++ c.acts, exitCode := code,
          finalState := c.state, errMsg := none }
    | ProxyOutcome.signaled _ =>
        let c1 := cleanup_server stp env.cleanupEnv
        let c2 := cleanup_server c1.state env.cleanupEnv
        { acts := launched ++ c1.acts ++ c2.acts, exitCode := 0,
          finalState := c2.state, errMsg := none }

/-- The conventional exit status of a process terminated by signal `s`
(shell convention 128 + signal number; e.g. 130 for `SIGINT`).  Modelled
from the spec's words "a conventional signal-termination code"; the source
never computes it. -/
def conventionalSignalExit (s : Nat) : Int := 128 + (s : Int)

namespace Root

/-! ### Root version (`mcp_launcher.py` at the repository root) -/

/-- `SERVER_PORT = 8000` (root version, line 10). -/
def SERVER_PORT : Nat := 8000

/-- `SERVER_URL = f"http://\x7bSERVER_HOST\x7d:\x7bSERVER_PORT\x7d"`
(root version, line 11). -/
def SERVER_URL : String := serverUrl SERVER_PORT

/-- `proxy_cmd = ["dba-mcp-proxy"] + (proxy_args or [])` (root version,
line 64): no endpoint flag is appended in this version, the endpoint
travels only in the `DATABRICKS_APP_URL` environment variable. -/
def proxyCmd (proxyArgs : Option (List String)) : List String :=
  "dba-mcp-proxy" :: (match proxyArgs with | none => [] | some xs => xs)

structure Env where
  serverPid : Nat
  backendDeadAfterWait : Bool
  backendExitCode : Int
  proxyExitCode : Int
  backendAliveAtCleanup : Bool
deriving DecidableEq, Repr

structure Result where
  exitCode : Int
  proxyLaunched : Bool
  proxyCmdRun : Option (List String)
deriving DecidableEq, Repr

/-- `launch_server_and_proxy(proxy_args)` of the root `mcp_launcher.py`
(lines 14-93): start the backend, `time.sleep(2)`; if `poll()` shows it
dead, raise `RuntimeError` — caught, `proxy_exit_code = 1`; otherwise run
the proxy via `subprocess.run(..., check=False)` and take its
`returncode`; the `finally` block signals the backend group if still
alive; `sys.exit(proxy_exit_code)`. -/
def launch_server_and_proxy (proxyArgs : Option (List String))
    (env : Env) : Result :=
  if env.backendDeadAfterWait then
    { exitCode := 1, proxyLaunched := false, proxyCmdRun := none }
  else
    { exitCode := env.proxyExitCode, proxyLaunched := true,
      proxyCmdRun := some (proxyCmd proxyArgs) }

end Root

/-! ### Shared helper lemmas -/

/-- The kill section is wrapped in `try/except`, so it never lets an error
escape, whatever the fault environment. -/
theorem cleanupKill_raised_none (st : CleanupState) (env : CleanupEnv)
    (acc : List Act) : (cleanupKill st env acc).raised = none := by
  unfold cleanupKill
  cases hs : st.serverPresent && st.serverAlive <;>
    cases hg : env.getpgidErr <;> cases ht : env.killpgTermErr <;>
    cases hk : env.killpgKillErr <;> cases ha : env.aliveAfterTerm <;>
    simp [hs, hg, ht, hk, ha]

/-! ### Claims -/

/-- C1: for every run in which the proxy process is launched and runs to
completion with exit code `c`, `launch_server_and_proxy` terminates the
supervisor process with exit code `c` (both the scripts version and the
root version). -/
theorem c1_exit_code_propagation (proxyArgs : Option (List String))
    (env : LaunchEnv) (renv : Root.Env) (c : Int)
    (h1 : env.backendDeadAfterWait = false)
    (h2 : env.proxyOutcome = ProxyOutcome.exits c)
    (h3 : renv.backendDeadAfterWait = false)
    (h4 : renv.proxyExitCode = c) :
    (launch_server_and_proxy proxyArgs env).exitCode = c ∧
    (Root.launch_server_and_proxy proxyArgs renv).exitCode = c := by
  constructor
  · simp [launch_server_and_proxy, h1, h2]
  · simp [Root.launch_server_and_proxy, h3, h4]

def c1Env : LaunchEnv :=
  { pid := 101, serverPort := 50000, serverPid := 102, pgid := 102,
    backendDeadAfterWait := false, backendExitCode := 0, logContents := "",
    proxyOutcome := ProxyOutcome.exits 3, backendAliveAtCleanup := true,
    backendAliveAfterTerm := false }

def c1REnv : Root.Env :=
  { serverPid := 102, backendDeadAfterWait := false, backendExitCode := 0,
    proxyExitCode := 3, backendAliveAtCleanup := true }

/-- C1 witness: a concrete run where the proxy exits with code 3 makes both
supervisors exit with code 3. -/
theorem c1_witness :
    c1Env.backendDeadAfterWait = false ∧
    c1Env.proxyOutcome = ProxyOutcome.exits 3 ∧
    c1REnv.backendDeadAfterWait = false ∧
    c1REnv.proxyExitCode = 3 ∧
    ((launch_server_and_proxy none c1Env).exitCode = 3 ∧
     (Root.launch_server_and_proxy none c1REnv).exitCode = 3) :=
  ⟨rfl, rfl, rfl, rfl, c1_exit_code_propagation none c1Env c1REnv 3 rfl rfl rfl rfl⟩

/-- C2: `cleanup_server` is idempotent.  For every starting state, invoking
it twice (in environments where no OS primitive raises spuriously) raises
no error in either invocation, and the second invocation performs no action
at all — in particular no kill attempt on the backend process. -/
theorem c2_cleanup_idempotent (st : CleanupState) (env₁ env₂ : CleanupEnv)
    (h1 : env₁.honest) (h2 : env₂.honest) :
    (cleanup_server st env₁).raised = none ∧
    (cleanup_server (cleanup_server st env₁).state env₂).raised = none ∧
    (cleanup_server (cleanup_server st env₁).state env₂).acts = [] := by
  obtain ⟨hc1, hg1, ht1, hk1⟩ := h1
  obtain ⟨hc2, hg2, ht2, hk2⟩ := h2
  obtain ⟨lfp, lfc, sp, sa, pid⟩ := st
  cases ha1 : env₁.aliveAfterTerm <;> cases ha2 : env₂.aliveAfterTerm <;>
    cases lfp <;> cases lfc <;> cases sp <;> cases sa <;>
    simp [cleanup_server, cleanupKill, hc1, hg1, ht1, hk1, hc2, hg2, ht2,
      hk2, ha1, ha2]

/-- C2 witness: a concrete double invocation from a live-backend state. -/
theorem c2_witness :
    ({ closeErr := none, getpgidErr := none, pgid := 102,
       killpgTermErr := none, aliveAfterTerm := true,
       killpgKillErr := none } : CleanupEnv).honest ∧
    ((cleanup_server
        { logFilePresent := true, logFileClosed := false,
          serverPresent := true, serverAlive := true, serverPid := 102 }
        { closeErr := none, getpgidErr := none, pgid := 102,
          killpgTermErr := none, aliveAfterTerm := true,
          killpgKillErr := none }).raised = none ∧
     (cleanup_server
        (cleanup_server
          { logFilePresent := true, logFileClosed := false,
            serverPresent := true, serverAlive := true, serverPid := 102 }
          { closeErr := none, getpgidErr := none, pgid := 102,
            killpgTermErr := none, aliveAfterTerm := true,
            killpgKillErr := none }).state
        { closeErr := none, getpgidErr := none, pgid := 102,
          killpgTermErr := none, aliveAfterTerm := true,
          killpgKillErr := none }).raised = none ∧
     (cleanup_server
        (cleanup_server
          { logFilePresent := true, logFileClosed := false,
            serverPresent := true, serverAlive := true, serverPid := 102 }
          { closeErr := none, getpgidErr := none, pgid := 102,
            killpgTermErr := none, aliveAfterTerm := true,
            killpgKillErr := none }).state
        { closeErr := none, getpgidErr := none, pgid := 102,
          killpgTermErr := none, aliveAfterTerm := true,
          killpgKillErr := none }).acts = []) :=
  ⟨by decide, c2_cleanup_idempotent _ _ _ (by decide) (by decide)⟩

/-- C3: whenever the backend has already exited when the fixed readiness
wait elapses, the supervisor exits with the fixed failure exit code 1 (not
the backend's exit code), never launches the proxy, and the diagnostic
message contains the backend's exit code and the captured log output. -/
theorem c3_startup_failure (proxyArgs : Option (List String)) (env : LaunchEnv)
    (h : env.backendDeadAfterWait = true) :
    (launch_server_and_proxy proxyArgs env).exitCode = 1 ∧
    (∀ cmd, Act.startProxy cmd ∉ (launch_server_and_proxy proxyArgs env).acts) ∧
    (launch_server_and_proxy proxyArgs env).errMsg =
      some (startFailMsg env.backendExitCode (logFilePath env.pid)
        env.logContents) ∧
    (∃ u v, startFailMsg env.backendExitCode (logFilePath env.pid)
        env.logContents = u ++ intRepr env.backendExitCode ++ v) ∧
    (∃ u v, startFailMsg env.backendExitCode (logFilePath env.pid)
        env.logContents = u ++ env.logContents ++ v) := by
  refine ⟨?_, ?_, ?_, ?_, ?_⟩
  · simp [launch_server_and_proxy, h]
  · intro cmd
    simp [launch_server_and_proxy, h, cleanup_server, cleanupKill]
  · simp [launch_server_and_proxy, h]
  · exact ⟨"Server failed to start. Exit code: ",
      ". Output from " ++ logFilePath env.pid ++ ":\n" ++ env.logContents,
      by simp [startFailMsg, String.append_assoc]⟩
  · exact ⟨"Server failed to start. Exit code: " ++ intRepr env.backendExitCode
        ++ ". Output from " ++ logFilePath env.pid ++ ":\n", "",
      by simp [startFailMsg, String.append_assoc]⟩

def c3Env : LaunchEnv :=
  { pid := 7, serverPort := 50001, serverPid := 8, pgid := 8,
    backendDeadAfterWait := true, backendExitCode := 7, logContents := "boom",
    proxyOutcome := ProxyOutcome.exits 0, backendAliveAtCleanup := false,
    backendAliveAfterTerm := false }

/-- C3 witness: the spec's example scenario — the stub backend exits
immediately with code 7; the supervisor exits 1 and the message carries
"7" and the log output. -/
theorem c3_witness :
    c3Env.backendDeadAfterWait = true ∧
    ((launch_server_and_proxy none c3Env).exitCode = 1 ∧
     (∀ cmd, Act.startProxy cmd ∉ (launch_server_and_proxy none c3Env).acts) ∧
     (launch_server_and_proxy none c3Env).errMsg =
       some (startFailMsg c3Env.backendExitCode (logFilePath c3Env.pid)
         c3Env.logContents) ∧
     (∃ u v, startFailMsg c3Env.backendExitCode (logFilePath c3Env.pid)
         c3Env.logContents = u ++ intRepr c3Env.backendExitCode ++ v) ∧
     (∃ u v, startFailMsg c3Env.backendExitCode (logFilePath c3Env.pid)
         c3Env.logContents = u ++ c3Env.logContents ++ v)) :=
  ⟨rfl, c3_startup_failure none c3Env rfl⟩

def c4Env : LaunchEnv :=
  { pid := 201, serverPort := 50002, serverPid := 202, pgid := 202,
    backendDeadAfterWait := false, backendExitCode := 0, logContents := "",
    proxyOutcome := ProxyOutcome.signaled 2, backendAliveAtCleanup := true,
    backendAliveAfterTerm := false }

/-- C4 counterexample: a run ended by `SIGINT` (signal 2) delivered while
the proxy is running makes the supervisor exit with code 0 — the signal
handler calls `sys.exit(0)` — not with the conventional signaled-termination
code 128 + 2 = 130. -/
theorem c4_counterexample :
    (launch_server_and_proxy none c4Env).exitCode = 0 ∧
    conventionalSignalExit 2 = 130 ∧
    (launch_server_and_proxy none c4Env).exitCode ≠ conventionalSignalExit 2 := by
  refine ⟨by decide, by decide, by decide⟩

/-- C4 (amended): for every run ended by delivery of an external interrupt
or termination signal, the supervisor runs the shutdown sequence (backend
terminated, log sink closed) and then exits with exit code 0 (the signal
handler calls `sys.exit(0)`), not with the conventional signaled-termination
code. -/
theorem c4_signal_shutdown (proxyArgs : Option (List String)) (env : LaunchEnv)
    (s : Nat) (h1 : env.backendDeadAfterWait = false)
    (h2 : env.proxyOutcome = ProxyOutcome.signaled s) :
    (launch_server_and_proxy proxyArgs env).exitCode = 0 ∧
    (launch_server_and_proxy proxyArgs env).finalState.logFileClosed = true ∧
    (launch_server_and_proxy proxyArgs env).finalState.serverAlive = false := by
  cases ha : env.backendAliveAtCleanup <;>
    cases ht : env.backendAliveAfterTerm <;>
    simp [launch_server_and_proxy, h1, h2, cleanup_server, cleanupKill,
      LaunchEnv.cleanupEnv, ha, ht]

/-- C4 witness: the concrete signaled run of the counterexample also
satisfies the amended claim. -/
theorem c4_witness :
    c4Env.backendDeadAfterWait = false ∧
    c4Env.proxyOutcome = ProxyOutcome.signaled 2 ∧
    ((launch_server_and_proxy none c4Env).exitCode = 0 ∧
     (launch_server_and_proxy none c4Env).finalState.logFileClosed = true ∧
     (launch_server_and_proxy none c4Env).finalState.serverAlive = false) :=
  ⟨rfl, rfl, c4_signal_shutdown none c4Env 2 rfl rfl⟩

def c5St : CleanupState :=
  { logFilePresent := false, logFileClosed := false, serverPresent := true,
    serverAlive := true, serverPid := 302 }

def c5Env : CleanupEnv :=
  { closeErr := none, getpgidErr := none, pgid := 302,
    killpgTermErr := none, aliveAfterTerm := true, killpgKillErr := none }

/-- C5 counterexample: in a concrete live-backend cleanup the first wait
(`time.sleep(1)`) and the post-`SIGKILL` wait (`wait(timeout=1)`) both last
1 second, so the second bounded wait is NOT shorter than the first, contrary
to the claim. -/
theorem c5_counterexample :
    (cleanup_server c5St c5Env).acts =
      [Act.getpgid 302, Act.killpg 302 Sig.sigterm,
       Act.sleepSec cleanupTermGraceSec, Act.killpg 302 Sig.sigkill,
       Act.waitProc cleanupKillWaitSec] ∧
    ¬ cleanupKillWaitSec < cleanupTermGraceSec := by decide

/-- C5 (amended): whenever `cleanup_server` runs with the backend handle
present and the backend still alive (and no OS primitive raises
spuriously), it resolves the backend's process-group id, sends `SIGTERM` to
that entire group, sleeps a fixed 1 second, and only if the backend is
still alive after that sends `SIGKILL` to the same group followed by a
second bounded wait — whose timeout equals (is not shorter than) the first
wait's duration. -/
theorem c5_cleanup_escalation (st : CleanupState) (env : CleanupEnv)
    (h1 : st.serverPresent = true) (h2 : st.serverAlive = true)
    (h3 : env.honest) :
    (cleanup_server st env).acts =
      (if st.logFilePresent && !st.logFileClosed then [Act.closeLog] else [])
      ++ ([Act.getpgid st.serverPid, Act.killpg env.pgid Sig.sigterm,
           Act.sleepSec cleanupTermGraceSec] ++
          (if env.aliveAfterTerm then
             [Act.killpg env.pgid Sig.sigkill, Act.waitProc cleanupKillWaitSec]
           else [])) ∧
    cleanupKillWaitSec = cleanupTermGraceSec := by
  obtain ⟨hc, hg, ht, hk⟩ := h3
  refine ⟨?_, rfl⟩
  obtain ⟨lfp, lfc, sp, sa, pid⟩ := st
  cases h1; cases h2
  cases lfp <;> cases lfc <;> cases ha : env.aliveAfterTerm <;>
    simp [cleanup_server, cleanupKill, hc, hg, ht, hk, ha]

/-- C5 witness: the escalating trace at the concrete live-backend state. -/
theorem c5_witness :
    c5St.serverPresent = true ∧ c5St.serverAlive = true ∧ c5Env.honest ∧
    ((cleanup_server c5St c5Env).acts =
      (if c5St.logFilePresent && !c5St.logFileClosed then [Act.closeLog]
       else [])
      ++ ([Act.getpgid c5St.serverPid, Act.killpg c5Env.pgid Sig.sigterm,
           Act.sleepSec cleanupTermGraceSec] ++
          (if c5Env.aliveAfterTerm then
             [Act.killpg c5Env.pgid Sig.sigkill, Act.waitProc cleanupKillWaitSec]
           else [])) ∧
    cleanupKillWaitSec = cleanupTermGraceSec) :=
  ⟨rfl, rfl, by decide, c5_cleanup_escalation c5St c5Env rfl rfl (by decide)⟩

/-- C6 counterexample: from a state with the log open and the backend
alive, an error raised while closing the log sink escapes `cleanup_server`
and the backend process group is never signaled (the trace stops at
`closeLog`). -/
theorem c6_counterexample :
    (cleanup_server
      { logFilePresent := true, logFileClosed := false, serverPresent := true,
        serverAlive := true, serverPid := 55 }
      { closeErr := some PyErr.other, getpgidErr := none, pgid := 55,
        killpgTermErr := none, aliveAfterTerm := true,
        killpgKillErr := none }).raised = some PyErr.other ∧
    (cleanup_server
      { logFilePresent := true, logFileClosed := false, serverPresent := true,
        serverAlive := true, serverPid := 55 }
      { closeErr := some PyErr.other, getpgidErr := none, pgid := 55,
        killpgTermErr := none, aliveAfterTerm := true,
        killpgKillErr := none }).acts = [Act.closeLog] := by decide

/-- C6 (amended): only the signaling steps of `cleanup_server` are guarded
— no error raised there escapes — but the log-sink close step is NOT
guarded: an error while closing the log sink propagates to the caller and
prevents the backend process group from being signaled. -/
theorem c6_close_not_guarded (st : CleanupState) (env env' : CleanupEnv)
    (e : PyErr) (h1 : st.logFilePresent = true) (h2 : st.logFileClosed = false)
    (h3 : env.closeErr = some e) (h4 : env'.closeErr = none) :
    ((cleanup_server st env).raised = some e ∧
     (cleanup_server st env).acts = [Act.closeLog] ∧
     (∀ g s, Act.killpg g s ∉ (cleanup_server st env).acts)) ∧
    (cleanup_server st env').raised = none := by
  refine ⟨⟨?_, ?_, ?_⟩, ?_⟩
  · simp [cleanup_server, h1, h2, h3]
  · simp [cleanup_server, h1, h2, h3]
  · intro g s
    simp [cleanup_server, h1, h2, h3]
  · simp only [cleanup_server, h4]
    split <;> exact cleanupKill_raised_none _ _ _

/-- C6 witness: concrete instances of both halves of the amended claim. -/
theorem c6_witness :
    ({ logFilePresent := true, logFileClosed := false, serverPresent := true,
       serverAlive := true, serverPid := 56 } : CleanupState).logFilePresent
        = true ∧
    ((cleanup_server
        { logFilePresent := true, logFileClosed := false,
          serverPresent := true, serverAlive := true, serverPid := 56 }
        { closeErr := some PyErr.timeoutExpired, getpgidErr := none,
          pgid := 56, killpgTermErr := none, aliveAfterTerm := false,
          killpgKillErr := none }).raised = some PyErr.timeoutExpired ∧
     (cleanup_server
        { logFilePresent := true, logFileClosed := false,
          serverPresent := true, serverAlive := true, serverPid := 56 }
        { closeErr := some PyErr.timeoutExpired, getpgidErr := none,
          pgid := 56, killpgTermErr := none, aliveAfterTerm := false,
          killpgKillErr := none }).acts = [Act.closeLog] ∧
     (∀ g s, Act.killpg g s ∉ (cleanup_server
        { logFilePresent := true, logFileClosed := false,
          serverPresent := true, serverAlive := true, serverPid := 56 }
        { closeErr := some PyErr.timeoutExpired, getpgidErr := none,
          pgid := 56, killpgTermErr := none, aliveAfterTerm := false,
          killpgKillErr := none }).acts)) ∧
    (cleanup_server
        { logFilePresent := true, logFileClosed := false,
          serverPresent := true, serverAlive := true, serverPid := 56 }
        { closeErr := none, getpgidErr := some PyErr.other, pgid := 56,
          killpgTermErr := none, aliveAfterTerm := false,
          killpgKillErr := none }).raised = none :=
  ⟨rfl, c6_close_not_guarded _ _ _ PyErr.timeoutExpired rfl rfl rfl rfl⟩

/-- C7 counterexample: an error raised while closing the log sink during
cleanup escalates to `cleanup_server`'s caller, so it is not the case that
cleanup never escalates any cleanup-time error. -/
theorem c7_counterexample :
    (cleanup_server
      { logFilePresent := true, logFileClosed := false, serverPresent := false,
        serverAlive := false, serverPid := 0 }
      { closeErr := some PyErr.other, getpgidErr := none, pgid := 0,
        killpgTermErr := none, aliveAfterTerm := false,
        killpgKillErr := none }).raised = some PyErr.other ∧
    (some PyErr.other ≠ (none : Option PyErr)) := by decide

/-- C7 (amended): any "process not found" condition — indeed any error at
all — raised while signaling the backend during cleanup is caught inside
`cleanup_server`, which then completes normally; as long as closing the log
sink does not itself raise, no cleanup-time error escalates to the caller.
(An error raised by the log-sink close does escalate; see the
counterexample.) -/
theorem c7_no_signaling_error_escapes (st : CleanupState) (env : CleanupEnv)
    (h : env.closeErr = none) :
    (cleanup_server st env).raised = none := by
  cases hl : st.logFilePresent && !st.logFileClosed <;>
    simp [cleanup_server, h, hl, cleanupKill_raised_none]

/-- C7 witness: a `ProcessLookupError` injected into the group-signaling
step is swallowed and cleanup completes normally. -/
theorem c7_witness :
    ({ closeErr := none, getpgidErr := none, pgid := 77,
       killpgTermErr := some PyErr.processLookup, aliveAfterTerm := false,
       killpgKillErr := none } : CleanupEnv).closeErr = none ∧
    (cleanup_server
      { logFilePresent := true, logFileClosed := false, serverPresent := true,
        serverAlive := true, serverPid := 77 }
      { closeErr := none, getpgidErr := none, pgid := 77,
        killpgTermErr := some PyErr.processLookup, aliveAfterTerm := false,
        killpgKillErr := none }).raised = none :=
  ⟨rfl, c7_no_signaling_error_escapes _ _ rfl⟩

/-- C8: for every caller-supplied argument list, the proxy invocation is the
proxy executable name, the caller's arguments verbatim and in order, then
exactly one endpoint flag/value pair carrying the backend's address
appended by the supervisor; and the same endpoint is placed in the
`DATABRICKS_APP_URL` environment variable before the proxy is launched. -/
theorem c8_proxy_invocation (args : List String) (env : LaunchEnv)
    (h : env.backendDeadAfterWait = false) :
    ∃ rest, (launch_server_and_proxy (some args) env).acts =
      [Act.registerHandlers, Act.openLog (logFilePath env.pid),
       Act.startBackend SERVER_HOST env.serverPort, Act.sleepSec 2,
       Act.setEnv "DATABRICKS_APP_URL" (serverUrl env.serverPort),
       Act.startProxy (("dba-mcp-proxy" :: args) ++
         ["--databricks-app-url", serverUrl env.serverPort]),
       Act.waitProxy] ++ rest := by
  cases hpo : env.proxyOutcome with
  | exits c =>
    refine ⟨(cleanup_server
        { logFilePresent := true, logFileClosed := false, serverPresent := true,
          serverAlive := env.backendAliveAtCleanup, serverPid := env.serverPid }
        env.cleanupEnv).acts, ?_⟩
    simp [launch_server_and_proxy, h, hpo, proxyCmd]
  | signaled s =>
    refine ⟨(cleanup_server
        { logFilePresent := true, logFileClosed := false, serverPresent := true,
          serverAlive := env.backendAliveAtCleanup, serverPid := env.serverPid }
        env.cleanupEnv).acts ++
      (cleanup_server
        (cleanup_server
          { logFilePresent := true, logFileClosed := false,
            serverPresent := true, serverAlive := env.backendAliveAtCleanup,
            serverPid := env.serverPid }
          env.cleanupEnv).state env.cleanupEnv).acts, ?_⟩
    simp [launch_server_and_proxy, h, hpo, proxyCmd]

def c8Env : LaunchEnv :=
  { pid := 9, serverPort := 51000, serverPid := 10, pgid := 10,
    backendDeadAfterWait := false, backendExitCode := 0, logContents := "",
    proxyOutcome := ProxyOutcome.exits 0, backendAliveAtCleanup := true,
    backendAliveAfterTerm := false }

/-- C8 witness: a concrete run with caller arguments `["--verbose", "-x"]`. -/
theorem c8_witness :
    c8Env.backendDeadAfterWait = false ∧
    (∃ rest, (launch_server_and_proxy (some ["--verbose", "-x"]) c8Env).acts =
      [Act.registerHandlers, Act.openLog (logFilePath c8Env.pid),
       Act.startBackend SERVER_HOST c8Env.serverPort, Act.sleepSec 2,
       Act.setEnv "DATABRICKS_APP_URL" (serverUrl c8Env.serverPort),
       Act.startProxy (("dba-mcp-proxy" :: ["--verbose", "-x"]) ++
         ["--databricks-app-url", serverUrl c8Env.serverPort]),
       Act.waitProxy] ++ rest) :=
  ⟨rfl, c8_proxy_invocation ["--verbose", "-x"] c8Env rfl⟩

/-- C9: the log path incorporates the supervisor's own process id, so two
supervisor processes with distinct pids compute distinct log paths. -/
theorem c9_log_path_unique (p₁ p₂ : Nat) (h : p₁ ≠ p₂) :
    logFilePath p₁ ≠ logFilePath p₂ := by
  intro he
  apply h
  apply decRepr_injective
  apply String.ext
  have hd := congrArg String.data he
  simp only [logFilePath, String.data_append] at hd
  exact List.append_cancel_left (List.append_cancel_right hd)

/-- C9 witness: pids 1 and 2 give distinct log paths. -/
theorem c9_witness : (1 : Nat) ≠ 2 ∧ logFilePath 1 ≠ logFilePath 2 :=
  ⟨by decide, c9_log_path_unique 1 2 (by decide)⟩

/-- C10: `proxy_args = None` behaves identically to `proxy_args = []` — the
full run of each launcher version is unchanged — and in both cases the
scripts version's constructed proxy command is exactly the proxy executable
name followed by the injected endpoint flag/value pair.  (In the root
version the command is just the executable name; its endpoint travels only
through the environment variable.) -/
theorem c10_none_defaults_to_empty :
    (∀ env : LaunchEnv, launch_server_and_proxy none env =
      launch_server_and_proxy (some []) env) ∧
    (∀ url, proxyCmd none url = proxyCmd (some []) url) ∧
    (∀ url, proxyCmd none url =
      ["dba-mcp-proxy", "--databricks-app-url", url]) ∧
    (∀ renv : Root.Env, Root.launch_server_and_proxy none renv =
      Root.launch_server_and_proxy (some []) renv) ∧
    Root.proxyCmd none = Root.proxyCmd (some []) :=
  ⟨fun _ => rfl, fun _ => rfl, fun _ => rfl, fun _ => rfl, rfl⟩
